import Mathlib

/-!
Verification development for the librescoot alarm-service daemon.

The definitions below are a shallow embedding of the Go sources:
* the alarm finite state machine (`internal/fsm/transitions.go` together
  with the state-machine core, entry/exit handlers and event declarations
  of the fsm package),
* the alarm output controller (`internal/alarm/controller.go`),
* the bounded event queue of `SendEvent`.

Machine integers are modelled as `Int` (Go `int`/`time.Duration` values in
the relevant ranges never overflow here), side effects are modelled as
explicit action/emission traces, and the single-threaded event loop of the
state machine becomes a pure step function on a configuration record.
-/

namespace AlarmService

/-- `State` of the alarm FSM (Go `State`, constants `StateInit` …
`StateSeatboxAccess` in the fsm package). -/
inductive AlarmState where
  | init
  | waitingEnabled
  | disarmed
  | delayArmed
  | armed
  | triggerLevel1Wait
  | triggerLevel1
  | triggerLevel2
  | waitingMovement
  | seatboxAccess
deriving Repr, DecidableEq

/-- Go `VehicleState` (constants `VehicleStateUnknown` …
`VehicleStateWaitingHibernation`). -/
inductive VehicleState where
  | unknown
  | vinit
  | standby
  | parked
  | readyToDrive
  | waitingSeatbox
  | shuttingDown
  | waitingHibernation
deriving Repr, DecidableEq

/-- Go `Sensitivity`. -/
inductive Sensitivity where
  | low
  | medium
  | high
deriving Repr, DecidableEq

/-- Go `InterruptPin`. -/
inductive InterruptPin where
  | noPin
  | int1
  | int2
deriving Repr, DecidableEq

/-- The closed set of events consumed by the state machine (the event
declarations of the fsm package).  Payloads that the FSM never reads
(`BMXInterruptEvent.Data`) are dropped; integer payloads are `Int`. -/
inductive Event where
  | initComplete
  | alarmModeChanged (enabled : Bool)
  | hornSettingChanged (enabled : Bool)
  | alarmDurationChanged (duration : Int)
  | hairTriggerSettingChanged (enabled : Bool)
  | hairTriggerDurationChanged (duration : Int)
  | l1CooldownDurationChanged (duration : Int)
  | vehicleStateChanged (vs : VehicleState)
  | bmxInterrupt (timestamp : Int)
  | temporarilyDisarm
  | delayArmedTimer
  | level1CooldownTimer
  | level1CheckTimer
  | level2CheckTimer
  | chipSetupTimer
  | minorMovement
  | majorMovement
  | noMovement
  | manualTrigger (duration : Int)
  | seatboxOpened
  | seatboxClosed
  | unauthorizedSeatbox
deriving Repr, DecidableEq

/-- Observable side effects of one `handleEvent` call: calls into the BMX
client, the suspend inhibitor, the alarm output controller, the timer
table and the status publisher, in program order.  A `startTimer` action
records the timer's name, its duration in seconds and the event its
callback sends on expiry (`none` for the `chip_setup` timer, whose
callback reconfigures the chip instead of sending an event). -/
inductive Action where
  | acquireInhibitor (reason : String)
  | releaseInhibitor
  | softReset
  | blinkHazards
  | alarmStart (seconds : Int)
  | alarmStop
  | startTimer (name : String) (seconds : Int) (emits : Option Event)
  | stopTimer (name : String)
  | configureBMX (pin : InterruptPin) (sens : Sensitivity)
  | enableInterrupt
  | disableInterrupt
  | setHornEnabled (enabled : Bool)
  | publishStatus (status : String)
deriving Repr, DecidableEq

/-- The mutable fields of the Go `StateMachine` that the event loop reads
and writes, plus `inhibitorHeld`, which tracks the suspend inhibitor on
the assumption that `Acquire`/`Release` calls succeed. -/
structure Config where
  state : AlarmState
  alarmEnabled : Bool
  vehicleStandby : Bool
  level2Cycles : Int
  requestDisarm : Bool
  alarmDuration : Int
  hairTriggerEnabled : Bool
  hairTriggerDuration : Int
  l1CooldownDuration : Int
  preSeatboxState : AlarmState
  seatboxLockClosed : Bool
  inhibitorHeld : Bool
deriving Repr, DecidableEq

/-- The configuration produced by `New` (fsm package): initial state
`StateInit`, `level2Cycles = 0`, `hairTriggerDuration = 3`,
`l1CooldownDuration = 5`, the inhibitor not held. -/
def initConfig (alarmDuration : Int) : Config :=
  { state := .init
    alarmEnabled := false
    vehicleStandby := false
    level2Cycles := 0
    requestDisarm := false
    alarmDuration := alarmDuration
    hairTriggerEnabled := false
    hairTriggerDuration := 3
    l1CooldownDuration := 5
    preSeatboxState := .init
    seatboxLockClosed := true
    inhibitorHeld := false }

/-- The `case StateInit` arm of `getTransition`
(internal/fsm/transitions.go): updates `vehicleStandby` / `alarmEnabled`
from the event, and resolves `InitCompleteEvent` by the context flags. -/
def transInit (sm : Config) (event : Event) : Config × AlarmState :=
  match event with
  | .vehicleStateChanged vs =>
      ({ sm with vehicleStandby := vs == .standby }, sm.state)
  | .alarmModeChanged en =>
      ({ sm with alarmEnabled := en }, sm.state)
  | .initComplete =>
      if sm.alarmEnabled then
        if sm.vehicleStandby then (sm, .delayArmed) else (sm, .disarmed)
      else (sm, .waitingEnabled)
  | _ => (sm, sm.state)

/-- The `case StateWaitingEnabled` arm of `getTransition`. -/
def transWaitingEnabled (sm : Config) (event : Event) : Config × AlarmState :=
  match event with
  | .alarmModeChanged en =>
      if en then
        if sm.vehicleStandby then ({ sm with alarmEnabled := true }, .delayArmed)
        else ({ sm with alarmEnabled := true }, .disarmed)
      else (sm, sm.state)
  | _ => (sm, sm.state)

/-- The `case StateDisarmed` arm of `getTransition`. -/
def transDisarmed (sm : Config) (event : Event) : Config × AlarmState :=
  match event with
  | .vehicleStateChanged vs =>
      if vs == .standby then ({ sm with vehicleStandby := true }, .delayArmed)
      else (sm, sm.state)
  | .alarmModeChanged en =>
      if en then (sm, sm.state)
      else ({ sm with alarmEnabled := false }, .waitingEnabled)
  | _ => (sm, sm.state)

/-- The `case StateDelayArmed` arm of `getTransition`. -/
def transDelayArmed (sm : Config) (event : Event) : Config × AlarmState :=
  match event with
  | .delayArmedTimer => (sm, .armed)
  | .unauthorizedSeatbox => (sm, .triggerLevel2)
  | .vehicleStateChanged vs =>
      if vs == .standby then (sm, sm.state)
      else ({ sm with vehicleStandby := false }, .disarmed)
  | .alarmModeChanged en =>
      if en then (sm, sm.state)
      else ({ sm with alarmEnabled := false }, .waitingEnabled)
  | _ => (sm, sm.state)

/-- The `case StateArmed` arm of `getTransition`. -/
def transArmed (sm : Config) (event : Event) : Config × AlarmState :=
  match event with
  | .seatboxOpened =>
      ({ sm with preSeatboxState := .armed }, .seatboxAccess)
  | .unauthorizedSeatbox => (sm, .triggerLevel2)
  | .minorMovement => (sm, .triggerLevel1Wait)
  | .bmxInterrupt _ => (sm, .triggerLevel1Wait)
  | .vehicleStateChanged vs =>
      if vs == .standby then (sm, sm.state)
      else ({ sm with vehicleStandby := false }, .disarmed)
  | .alarmModeChanged en =>
      if en then (sm, sm.state)
      else ({ sm with alarmEnabled := false }, .waitingEnabled)
  | .manualTrigger _ => (sm, .triggerLevel2)
  | _ => (sm, sm.state)

/-- The `case StateTriggerLevel1Wait` arm of `getTransition`. -/
def transTriggerLevel1Wait (sm : Config) (event : Event) : Config × AlarmState :=
  match event with
  | .seatboxOpened =>
      ({ sm with preSeatboxState := .triggerLevel1Wait }, .seatboxAccess)
  | .unauthorizedSeatbox => (sm, .triggerLevel2)
  | .level1CooldownTimer => (sm, .triggerLevel1)
  | .vehicleStateChanged vs =>
      if vs == .standby then (sm, sm.state)
      else ({ sm with vehicleStandby := false }, .disarmed)
  | .alarmModeChanged en =>
      if en then (sm, sm.state)
      else ({ sm with alarmEnabled := false }, .waitingEnabled)
  | _ => (sm, sm.state)

/-- The `case StateTriggerLevel1` arm of `getTransition`. -/
def transTriggerLevel1 (sm : Config) (event : Event) : Config × AlarmState :=
  match event with
  | .seatboxOpened =>
      ({ sm with preSeatboxState := .triggerLevel1 }, .seatboxAccess)
  | .unauthorizedSeatbox => (sm, .triggerLevel2)
  | .level1CheckTimer => (sm, .delayArmed)
  | .majorMovement => (sm, .triggerLevel2)
  | .bmxInterrupt _ => (sm, .triggerLevel2)
  | .vehicleStateChanged vs =>
      if vs == .standby then (sm, sm.state)
      else ({ sm with vehicleStandby := false }, .disarmed)
  | .alarmModeChanged en =>
      if en then (sm, sm.state)
      else ({ sm with alarmEnabled := false }, .waitingEnabled)
  | _ => (sm, sm.state)

/-- The `case StateTriggerLevel2` arm of `getTransition`. -/
def transTriggerLevel2 (sm : Config) (event : Event) : Config × AlarmState :=
  match event with
  | .level2CheckTimer =>
      if sm.level2Cycles ≥ 4 then (sm, .disarmed) else (sm, .waitingMovement)
  | .vehicleStateChanged vs =>
      if vs == .standby then (sm, sm.state)
      else ({ sm with vehicleStandby := false }, .disarmed)
  | .alarmModeChanged en =>
      if en then (sm, sm.state)
      else ({ sm with alarmEnabled := false }, .waitingEnabled)
  | _ => (sm, sm.state)

/-- The `case StateWaitingMovement` arm of `getTransition` — the only
place where `level2Cycles` is incremented. -/
def transWaitingMovement (sm : Config) (event : Event) : Config × AlarmState :=
  match event with
  | .level2CheckTimer => (sm, .delayArmed)
  | .majorMovement =>
      if sm.level2Cycles + 1 ≥ 4 then
        ({ sm with level2Cycles := sm.level2Cycles + 1 }, .disarmed)
      else ({ sm with level2Cycles := sm.level2Cycles + 1 }, .waitingMovement)
  | .vehicleStateChanged vs =>
      if vs == .standby then (sm, sm.state)
      else ({ sm with vehicleStandby := false }, .disarmed)
  | .alarmModeChanged en =>
      if en then (sm, sm.state)
      else ({ sm with alarmEnabled := false }, .waitingEnabled)
  | _ => (sm, sm.state)

/-- The `case StateSeatboxAccess` arm of `getTransition`. -/
def transSeatboxAccess (sm : Config) (event : Event) : Config × AlarmState :=
  match event with
  | .seatboxClosed => ({ sm with seatboxLockClosed := true }, .delayArmed)
  | .vehicleStateChanged vs =>
      if vs == .standby then (sm, sm.state)
      else ({ sm with vehicleStandby := false }, .disarmed)
  | .alarmModeChanged en =>
      if en then (sm, sm.state)
      else ({ sm with alarmEnabled := false }, .waitingEnabled)
  | _ => (sm, sm.state)

/-- `getTransition` (internal/fsm/transitions.go): resolves the next
state from the current state and the event, updating context fields
(`alarmEnabled`, `vehicleStandby`, `level2Cycles`, `preSeatboxState`,
`seatboxLockClosed`) on the way, exactly as the Go switch does.  Returns
the updated context and the next state; any unmatched (state, event) pair
falls through to `return sm.state`. -/
def getTransition (sm : Config) (event : Event) : Config × AlarmState :=
  match sm.state with
  | .init => transInit sm event
  | .waitingEnabled => transWaitingEnabled sm event
  | .disarmed => transDisarmed sm event
  | .delayArmed => transDelayArmed sm event
  | .armed => transArmed sm event
  | .triggerLevel1Wait => transTriggerLevel1Wait sm event
  | .triggerLevel1 => transTriggerLevel1 sm event
  | .triggerLevel2 => transTriggerLevel2 sm event
  | .waitingMovement => transWaitingMovement sm event
  | .seatboxAccess => transSeatboxAccess sm event

/-- `stateToStatus` (fsm package): the state → published-status-string
mapping, with `"unknown"` as the default branch (hit only by `StateInit`). -/
def stateToStatus (state : AlarmState) : String :=
  match state with
  | .waitingEnabled => "disabled"
  | .disarmed => "disarmed"
  | .delayArmed => "delay-armed"
  | .armed => "armed"
  | .triggerLevel1Wait => "level-1-triggered"
  | .triggerLevel1 => "level-1-triggered"
  | .triggerLevel2 => "level-2-triggered"
  | .waitingMovement => "level-2-triggered"
  | .seatboxAccess => "seatbox-access"
  | .init => "unknown"

/-- State entry actions (`enterState` dispatching to the `onEnter…`
handlers of the fsm package, seatbox/hair-trigger variant).  Returns the
updated context (inhibitor tracking, `level2Cycles`/`requestDisarm`
resets) and the emitted action trace in program order. -/
def enterState (sm : Config) (s : AlarmState) : Config × List Action :=
  match s with
  | .init =>
      (sm, [ .configureBMX .int2 .low ])
  | .waitingEnabled =>
      ({ sm with inhibitorHeld := false, level2Cycles := 0 },
       [ .softReset, .disableInterrupt, .configureBMX .int2 .low,
         .releaseInhibitor ])
  | .disarmed =>
      ({ sm with inhibitorHeld := false, level2Cycles := 0 },
       [ .softReset, .disableInterrupt, .configureBMX .noPin .low,
         .releaseInhibitor ])
  | .delayArmed =>
      ({ sm with inhibitorHeld := true, level2Cycles := 0, requestDisarm := false },
       [ .acquireInhibitor "Arming alarm", .softReset,
         .configureBMX .int2 .low,
         .startTimer "delay_armed" 5 (some .delayArmedTimer) ])
  | .armed =>
      ({ sm with inhibitorHeld := false },
       [ .releaseInhibitor, .configureBMX .noPin .medium, .enableInterrupt ])
  | .triggerLevel1Wait =>
      ({ sm with inhibitorHeld := true },
       [ .acquireInhibitor "Level 1 cooldown", .softReset, .blinkHazards ] ++
       (if sm.hairTriggerEnabled then [ .alarmStart sm.hairTriggerDuration ] else []) ++
       [ .startTimer "level1_cooldown" sm.l1CooldownDuration (some .level1CooldownTimer) ])
  | .triggerLevel1 =>
      (sm, [ .configureBMX .noPin .medium, .enableInterrupt,
             .startTimer "level1_check" 5 (some .level1CheckTimer) ])
  | .triggerLevel2 =>
      ({ sm with inhibitorHeld := true },
       [ .acquireInhibitor "Level 2 triggered", .softReset,
         .alarmStart sm.alarmDuration,
         .startTimer "level2_check" 50 (some .level2CheckTimer) ])
  | .waitingMovement =>
      (sm, [ .softReset, .alarmStart sm.alarmDuration,
             .startTimer "chip_setup" 47 none,
             .startTimer "waiting_movement" 50 (some .level2CheckTimer) ])
  | .seatboxAccess =>
      ({ sm with inhibitorHeld := true },
       [ .acquireInhibitor "Seatbox access", .softReset, .disableInterrupt,
         .configureBMX .noPin .low ])

/-- State exit actions (`exitState` dispatching to the `onExit…` handlers;
the seatbox variant defines no exit handler for `Armed`, and states
without an exit case in the Go switch do nothing). -/
def exitState (sm : Config) (s : AlarmState) : Config × List Action :=
  match s with
  | .delayArmed => (sm, [ .stopTimer "delay_armed" ])
  | .triggerLevel1Wait =>
      (sm, [ .stopTimer "level1_cooldown", .alarmStop ])
  | .triggerLevel1 => (sm, [ .stopTimer "level1_check" ])
  | .triggerLevel2 => (sm, [ .stopTimer "level2_check", .alarmStop ])
  | .waitingMovement =>
      (sm, [ .stopTimer "chip_setup", .stopTimer "waiting_movement", .alarmStop ])
  | .seatboxAccess => ({ sm with inhibitorHeld := false }, [ .releaseInhibitor ])
  | _ => (sm, [])

/-- The `event.(BMXInterruptEvent)` type assertion used by `handleEvent`
on the L1→L2 edge. -/
def Event.isBmxInterrupt : Event → Bool
  | .bmxInterrupt _ => true
  | _ => false

/-- `handleEvent` (fsm package): context-only events return immediately;
otherwise the next state is resolved, and if it differs from the current
state the machine blinks hazards on the L1→L2 BMX-interrupt edge, runs the
old state's exit actions, switches state, runs the new state's entry
actions and publishes the new status.  When the resolved state equals the
current one no exit/entry actions run and nothing is published. -/
def handleEvent (sm : Config) (event : Event) : Config × List Action :=
  match event with
  | .hornSettingChanged en => (sm, [ .setHornEnabled en ])
  | .alarmDurationChanged d => ({ sm with alarmDuration := d }, [])
  | .hairTriggerSettingChanged en => ({ sm with hairTriggerEnabled := en }, [])
  | .hairTriggerDurationChanged d => ({ sm with hairTriggerDuration := d }, [])
  | .l1CooldownDurationChanged d => ({ sm with l1CooldownDuration := d }, [])
  | _ =>
    let oldState := sm.state
    let t := getTransition sm event
    let sm1 := t.1
    let newState := t.2
    if newState = oldState then (sm1, [])
    else
      let blink : List Action :=
        if oldState = .triggerLevel1 ∧ newState = .triggerLevel2 ∧
           event.isBmxInterrupt = true then
          [ .blinkHazards ]
        else []
      let e1 := exitState sm1 oldState
      let sm3 := { e1.1 with state := newState }
      let e2 := enterState sm3 newState
      (e2.1, blink ++ e1.2 ++ e2.2 ++ [ .publishStatus (stateToStatus newState) ])

/-- One step of the event loop, keeping only the configuration. -/
def step (sm : Config) (event : Event) : Config :=
  (handleEvent sm event).1

/-- The configuration reached by consuming a trace of events starting from
the machine `New` creates. -/
def run (alarmDuration : Int) (trace : List Event) : Config :=
  trace.foldl step (initConfig alarmDuration)

/-! ## Bounded event queue (`SendEvent`)

`SendEvent` writes to a Go channel of capacity 100 through a
`select`/`default`, so a full queue drops the event being sent and an
unfull queue appends it at the tail. -/

/-- The capacity the fsm's `New` gives the event channel. -/
def eventQueueCapacity : Nat := 100

/-- `SendEvent`: append to the FIFO when below capacity, otherwise drop
the newest event (the argument), leaving the queue unchanged. -/
def sendEvent (queue : List Event) (event : Event) : List Event :=
  if queue.length < eventQueueCapacity then queue ++ [event] else queue

/-! ## Alarm output controller (`internal/alarm/controller.go`) -/

/-- Pushes to the `scooter:horn` / `scooter:blinker` list queues and
writes of the `alarm-active` field in the alarm status hash. -/
inductive Emission where
  | hornPush (value : String)
  | blinkerPush (value : String)
  | setAlarmActive (value : String)
deriving Repr, DecidableEq

/-- The controller's lock-protected mutable state. -/
structure AlarmCtl where
  active : Bool
  hornEnabled : Bool
deriving Repr, DecidableEq

/-- `stopUnsafe`: a no-op when the controller is not active; otherwise
cancel the pulse loop, push `"off"` to `scooter:horn` (only when the horn
is enabled), push `"off"` to `scooter:blinker`, set `alarm-active` to
`"false"` and clear the active flag.  The Go function always returns
`nil`, so no error component is modelled. -/
def stopUnsafe (c : AlarmCtl) : AlarmCtl × List Emission :=
  if !c.active then (c, [])
  else
    ({ c with active := false },
     (if c.hornEnabled then [ .hornPush "off" ] else []) ++
     [ .blinkerPush "off", .setAlarmActive "false" ])

/-- `Stop` — takes the lock and calls `stopUnsafe`. -/
def stop (c : AlarmCtl) : AlarmCtl × List Emission :=
  stopUnsafe c

/-- The cycle count of `runHornPattern`:
`cycles := int((duration - 200ms) / 800ms)` with Go's
truncated (toward-zero) integer division, clamped below by 1.
Durations are in milliseconds. -/
def hornCycles (durationMs : Int) : Int :=
  max 1 ((durationMs - 200).tdiv 800)

/-- Total ticks of the 400 ms ticker: `totalTicks := cycles * 2`. -/
def hornTotalTicks (durationMs : Int) : Int :=
  hornCycles durationMs * 2

/-- The horn pattern run length in milliseconds: the loop exits after
`totalTicks` ticks of 400 ms each. -/
def hornRunMs (durationMs : Int) : Int :=
  hornTotalTicks durationMs * 400

/-- The `scooter:horn` pushes of one uninterrupted run when the horn is
enabled: on tick `i` (0-based) the loop pushes `"on"` for even `i` and
`"off"` for odd `i`; with the horn disabled it pushes nothing. -/
def hornPatternEmissions (hornEnabled : Bool) (durationMs : Int) : List Emission :=
  if hornEnabled then
    (List.range (hornTotalTicks durationMs).toNat).map
      (fun i => if i % 2 = 0 then .hornPush "on" else .hornPush "off")
  else []

/-! ## Definitions taken from the spec's words (for refinement claims) -/

/-- Modelled from the spec: `cycles = max(1, floor((duration − 200 ms) /
800 ms))` with mathematical floor division, as §4.g words it. -/
def specHornCycles (durationMs : Int) : Int :=
  max 1 ((durationMs - 200).fdiv 800)

/-- Modelled from the spec: the §4.j transition table has a row for a
(state, event) pair.  Rows with guards on the event payload
(`AlarmModeChanged(true)`, `VehicleStateChanged(StandBy)`, …) count as
present only when the payload satisfies the guard; the two
"(any armed-class)" rows apply to the states that hold an armed-alarm
context: DelayArmed, Armed, TriggerL1Wait, TriggerL1, TriggerL2,
WaitingMovement and SeatboxAccess. -/
def armedClass (s : AlarmState) : Bool :=
  match s with
  | .delayArmed | .armed | .triggerLevel1Wait | .triggerLevel1
  | .triggerLevel2 | .waitingMovement | .seatboxAccess => true
  | _ => false

/-- Modelled from the spec: the §4.j transition-table row predicate (see
`armedClass`). -/
def specHasRow (s : AlarmState) (e : Event) : Bool :=
  match s, e with
  | .init, .initComplete => true
  | .init, .vehicleStateChanged _ => true
  | .init, .alarmModeChanged _ => true
  | .waitingEnabled, .alarmModeChanged en => en
  | .disarmed, .vehicleStateChanged vs => vs == .standby
  | .disarmed, .alarmModeChanged en => !en
  | .delayArmed, .delayArmedTimer => true
  | .delayArmed, .unauthorizedSeatbox => true
  | .armed, .bmxInterrupt _ => true
  | .armed, .minorMovement => true
  | .armed, .seatboxOpened => true
  | .armed, .unauthorizedSeatbox => true
  | .armed, .manualTrigger _ => true
  | .triggerLevel1Wait, .level1CooldownTimer => true
  | .triggerLevel1Wait, .seatboxOpened => true
  | .triggerLevel1Wait, .unauthorizedSeatbox => true
  | .triggerLevel1, .level1CheckTimer => true
  | .triggerLevel1, .bmxInterrupt _ => true
  | .triggerLevel1, .majorMovement => true
  | .triggerLevel1, .unauthorizedSeatbox => true
  | .triggerLevel2, .level2CheckTimer => true
  | .waitingMovement, .majorMovement => true
  | .waitingMovement, .level2CheckTimer => true
  | .seatboxAccess, .seatboxClosed => true
  | s, .alarmModeChanged en => armedClass s && !en
  | s, .vehicleStateChanged vs => armedClass s && !(vs == .standby)
  | _, _ => false

/-! ## Helper lemmas -/

/-- Truncated and floor division agree under the `max 1` clamp: for a
nonnegative numerator they coincide, and for a negative one both sides
clamp to 1. -/
lemma max_one_tdiv_eq_fdiv (n : Int) :
    max 1 (n.tdiv 800) = max 1 (n.fdiv 800) := by
  rcases le_or_lt 0 n with hn | hn
  · rw [Int.tdiv_eq_ediv hn (by norm_num), Int.fdiv_eq_ediv n (by norm_num)]
  · have h2 : 0 ≤ (-n).tdiv 800 := Int.tdiv_nonneg (by omega) (by norm_num)
    have h3 : (-n).tdiv 800 = -(n.tdiv 800) := Int.neg_tdiv n 800
    have ht : n.tdiv 800 ≤ 0 := by omega
    have hf : n.fdiv 800 ≤ 0 := le_of_lt (Int.fdiv_neg' hn (by norm_num))
    rw [max_eq_left (by omega), max_eq_left (by omega)]

/-- An invariant preserved by every `step` holds along every trace. -/
lemma inv_foldl {P : Config → Prop} (hstep : ∀ c e, P c → P (step c e)) :
    ∀ (tr : List Event) (c : Config), P c → P (tr.foldl step c)
  | [], _, h => h
  | e :: tr, c, h => inv_foldl hstep tr (step c e) (hstep c e h)

/-- Inductive invariant for `level2Cycles`: it stays in `[0, 3]` after
every completed `handleEvent`, and is nonzero only in WaitingMovement. -/
def CycInv (c : Config) : Prop :=
  (0 ≤ c.level2Cycles ∧ c.level2Cycles ≤ 3) ∧
  (c.level2Cycles = 0 ∨ c.state = .waitingMovement)

lemma cycInv_init (d : Int) : CycInv (initConfig d) := by
  simp [CycInv, initConfig]

set_option maxHeartbeats 4000000 in
lemma cycInv_step (c : Config) (e : Event) (h : CycInv c) :
    CycInv (step c e) := by
  obtain ⟨⟨h0, h3⟩, hz⟩ := h
  cases hs : c.state <;> cases e <;>
    simp_all [CycInv, step, handleEvent, getTransition,
      transInit, transWaitingEnabled, transDisarmed, transDelayArmed,
      transArmed, transTriggerLevel1Wait, transTriggerLevel1,
      transTriggerLevel2, transWaitingMovement, transSeatboxAccess,
      enterState, exitState, stateToStatus, Event.isBmxInterrupt] <;>
    split_ifs <;> simp_all <;> omega

/-- `true` exactly for the states in which the suspend inhibitor is held
once the corresponding entry/exit actions have completed (TriggerL1
inherits the hold acquired on entering TriggerL1Wait, and WaitingMovement
the one acquired on entering TriggerL2). -/
def heldStates (s : AlarmState) : Bool :=
  match s with
  | .delayArmed | .triggerLevel1Wait | .triggerLevel1 | .triggerLevel2
  | .waitingMovement | .seatboxAccess => true
  | _ => false

/-- Inductive invariant: the inhibitor is held iff the current state is
one of the `heldStates`. -/
def InhInv (c : Config) : Prop :=
  c.inhibitorHeld = heldStates c.state

lemma inhInv_init (d : Int) : InhInv (initConfig d) := rfl

set_option maxHeartbeats 4000000 in
lemma inhInv_step (c : Config) (e : Event) (h : InhInv c) :
    InhInv (step c e) := by
  cases hs : c.state <;> cases e <;>
    simp_all [InhInv, heldStates, step, handleEvent, getTransition,
      transInit, transWaitingEnabled, transDisarmed, transDelayArmed,
      transArmed, transTriggerLevel1Wait, transTriggerLevel1,
      transTriggerLevel2, transWaitingMovement, transSeatboxAccess,
      enterState, exitState, stateToStatus, Event.isBmxInterrupt] <;>
    split_ifs <;> simp_all

/-! ## Claims -/

/-- C5: for every requested duration the horn pattern computes
`cycles = max(1, floor((duration − 200 ms) / 800 ms))`, the run lasts
exactly `cycles × 800 ms` (`2 × cycles` ticks of 400 ms), the ticks
alternate `"on"`, `"off"`, … on `scooter:horn` starting with `"on"` when
the horn is enabled (and push nothing when it is disabled), and the
boundary values are 800 ms ⇒ 1 cycle, 1000 ms ⇒ 1, 1800 ms ⇒ 2,
10000 ms ⇒ 12. -/
theorem hornPattern_cycles_correct :
    (∀ d : Int, hornCycles d = specHornCycles d) ∧
    (∀ d : Int, hornRunMs d = hornCycles d * 800) ∧
    (∀ d : Int, hornPatternEmissions false d = []) ∧
    (∀ (d : Int) (i : Nat), i < (hornTotalTicks d).toNat →
      (hornPatternEmissions true d)[i]? =
        some (if i % 2 = 0 then Emission.hornPush "on" else Emission.hornPush "off")) ∧
    (hornCycles 800 = 1 ∧ hornCycles 1000 = 1 ∧ hornCycles 1800 = 2 ∧
      hornCycles 10000 = 12) := by
  refine ⟨fun d => max_one_tdiv_eq_fdiv (d - 200), fun d => ?_, fun d => rfl, ?_, by decide⟩
  · unfold hornRunMs hornTotalTicks
    ring
  · intro d i hi
    simp [hornPatternEmissions, List.getElem?_range hi]

/-- Witness for C5 at concrete inputs: the first tick of a 10 s run
pushes `"on"`. -/
theorem hornPattern_cycles_correct_witness :
    (hornPatternEmissions true 10000)[0]? = some (Emission.hornPush "on") := by
  have h := hornPattern_cycles_correct.2.2.2.1 10000 0 (by decide)
  simpa using h

/-- C8: `SendEvent` never blocks — the queue is a FIFO of capacity 100;
below capacity the event is appended in FIFO order, and at capacity the
newest event (the argument) is dropped, leaving the queue unchanged. -/
theorem sendEvent_correct (queue : List Event) (event : Event) :
    (queue.length < 100 → sendEvent queue event = queue ++ [event]) ∧
    (100 ≤ queue.length → sendEvent queue event = queue) := by
  constructor <;> intro h <;> simp [sendEvent, eventQueueCapacity, h]

/-- Witness for C8: both behaviours at concrete queues — an empty queue
appends, a full queue of 100 events is left unchanged. -/
theorem sendEvent_correct_witness :
    sendEvent [] Event.initComplete = [Event.initComplete] ∧
    sendEvent (List.replicate 100 Event.initComplete) Event.majorMovement =
      List.replicate 100 Event.initComplete := by
  constructor
  · exact (sendEvent_correct [] Event.initComplete).1 (by decide)
  · exact (sendEvent_correct (List.replicate 100 Event.initComplete)
      Event.majorMovement).2 (by simp)

/-- C10: `Stop` on an inactive alarm output controller is a complete
no-op — no pushes to `scooter:horn` or `scooter:blinker` and no rewrite of
`alarm-active` — hence `Stop` is idempotent (a second consecutive `Stop`
emits nothing); and when `Stop` acts on an active run it pushes `"off"`
to `scooter:horn` exactly when the horn is enabled. -/
theorem stop_noop_idempotent (c : AlarmCtl) :
    (c.active = false → stop c = (c, [])) ∧
    (stop (stop c).1).2 = [] ∧
    (c.active = true →
      (Emission.hornPush "off" ∈ (stop c).2 ↔ c.hornEnabled = true)) := by
  obtain ⟨a, hE⟩ := c
  cases a <;> cases hE <;> simp [stop, stopUnsafe]

/-- C6: along every event trace from the initial configuration,
`level2Cycles` lies in `[0, 4]`, and it equals 0 whenever the current
state is WaitingEnabled, Disarmed or DelayArmed (the counter is reset on
entry to each of these states and incremented only while handling
MajorMovement in WaitingMovement). -/
theorem level2Cycles_bounded (d : Int) (tr : List Event) :
    (0 ≤ (run d tr).level2Cycles ∧ (run d tr).level2Cycles ≤ 4) ∧
    ((run d tr).state = .waitingEnabled ∨ (run d tr).state = .disarmed ∨
      (run d tr).state = .delayArmed → (run d tr).level2Cycles = 0) := by
  have h : CycInv (run d tr) :=
    inv_foldl cycInv_step tr (initConfig d) (cycInv_init d)
  obtain ⟨⟨h0, h3⟩, hz⟩ := h
  refine ⟨⟨h0, by omega⟩, fun hst => ?_⟩
  rcases hz with hz | hwm
  · exact hz
  · rcases hst with h1 | h1 | h1 <;> rw [h1] at hwm <;> cases hwm

/-- Witness for C6: a concrete trace ending in WaitingEnabled has
`level2Cycles = 0`. -/
theorem level2Cycles_bounded_witness :
    (run 10 [Event.initComplete]).level2Cycles = 0 :=
  (level2Cycles_bounded 10 [Event.initComplete]).2 (Or.inl (by decide))

/-- C7: along every event trace (inhibitor calls assumed to succeed),
after each completed transition the suspend inhibitor is held whenever
the state is DelayArmed, TriggerL1Wait, TriggerL2, WaitingMovement or
SeatboxAccess, and not held whenever the state is WaitingEnabled,
Disarmed or Armed. -/
theorem inhibitor_held_per_state (d : Int) (tr : List Event) :
    ((run d tr).state = .delayArmed ∨ (run d tr).state = .triggerLevel1Wait ∨
      (run d tr).state = .triggerLevel2 ∨ (run d tr).state = .waitingMovement ∨
      (run d tr).state = .seatboxAccess → (run d tr).inhibitorHeld = true) ∧
    ((run d tr).state = .waitingEnabled ∨ (run d tr).state = .disarmed ∨
      (run d tr).state = .armed → (run d tr).inhibitorHeld = false) := by
  have h : InhInv (run d tr) :=
    inv_foldl inhInv_step tr (initConfig d) (inhInv_init d)
  constructor
  · intro hst
    rcases hst with h1 | h1 | h1 | h1 | h1 <;> simp_all [InhInv, heldStates]
  · intro hst
    rcases hst with h1 | h1 | h1 <;> simp_all [InhInv, heldStates]

/-- Witness for C7: a concrete trace reaching DelayArmed holds the
inhibitor, and one reaching Armed has released it. -/
theorem inhibitor_held_per_state_witness :
    (run 10 [Event.alarmModeChanged true, Event.vehicleStateChanged .standby,
      Event.initComplete]).inhibitorHeld = true ∧
    (run 10 [Event.alarmModeChanged true, Event.vehicleStateChanged .standby,
      Event.initComplete, Event.delayArmedTimer]).inhibitorHeld = false := by
  constructor
  · exact (inhibitor_held_per_state 10 [Event.alarmModeChanged true,
      Event.vehicleStateChanged .standby, Event.initComplete]).1
      (Or.inl (by decide))
  · exact (inhibitor_held_per_state 10 [Event.alarmModeChanged true,
      Event.vehicleStateChanged .standby, Event.initComplete,
      Event.delayArmedTimer]).2 (Or.inr (Or.inr (by decide)))

set_option maxHeartbeats 4000000 in
/-- C9: every status string the machine publishes is the §4.i status of
the state just entered, that state is never Init (no transition targets
Init, so the `"unknown"` branch of `stateToStatus` is never published),
and the string is one of the seven mapped statuses. -/
theorem published_status_valid (c : Config) (e : Event) (s : String)
    (h : Action.publishStatus s ∈ (handleEvent c e).2) :
    (handleEvent c e).1.state ≠ .init ∧
    s = stateToStatus (handleEvent c e).1.state ∧
    (s = "disabled" ∨ s = "disarmed" ∨ s = "delay-armed" ∨ s = "armed" ∨
      s = "level-1-triggered" ∨ s = "level-2-triggered" ∨
      s = "seatbox-access") := by
  cases hs : c.state <;> cases e <;>
    simp_all [handleEvent, getTransition,
      transInit, transWaitingEnabled, transDisarmed, transDelayArmed,
      transArmed, transTriggerLevel1Wait, transTriggerLevel1,
      transTriggerLevel2, transWaitingMovement, transSeatboxAccess,
      enterState, exitState, stateToStatus, Event.isBmxInterrupt] <;>
    split_ifs <;> simp_all

/-- Witness for C9: the cold-start transition publishes `"disabled"`,
which is the status of the state entered. -/
theorem published_status_valid_witness :
    "disabled" = stateToStatus (handleEvent (initConfig 10)
      Event.initComplete).1.state :=
  (published_status_valid (initConfig 10) Event.initComplete "disabled"
    (by decide)).2.1

/-- C1 counterexample: in WaitingMovement with `level2Cycles = 0`, a
MajorMovement increments the counter and the resolved next state equals
the current one, so `handleEvent` runs no exit/entry actions at all — the
alarm output is not stopped/restarted and the `chip_setup` /
`waiting_movement` timers are not restarted, contrary to the claimed
re-entry. -/
theorem waitingMovement_no_reentry_counterexample :
    (handleEvent { initConfig 10 with state := .waitingMovement }
        Event.majorMovement).2 = [] ∧
    (handleEvent { initConfig 10 with state := .waitingMovement }
        Event.majorMovement).1.state = .waitingMovement ∧
    (handleEvent { initConfig 10 with state := .waitingMovement }
        Event.majorMovement).1.level2Cycles = 1 := by
  decide

/-- C1 (amended): a MajorMovement in WaitingMovement first increments
`level2Cycles`; if the incremented value is ≥ 4 the machine transitions to
Disarmed (whose entry resets the counter), otherwise it stays in
WaitingMovement with the incremented counter and — because `handleEvent`
skips exit/entry actions when the resolved state equals the current one —
without re-running the WaitingMovement exit and entry actions (no action
trace is emitted).  In particular a MajorMovement at `level2Cycles = 3`
transitions to Disarmed. -/
theorem waitingMovement_majorMovement (c : Config)
    (h : c.state = .waitingMovement) :
    (4 ≤ c.level2Cycles + 1 →
      (handleEvent c Event.majorMovement).1.state = .disarmed ∧
      (handleEvent c Event.majorMovement).1.level2Cycles = 0) ∧
    (c.level2Cycles + 1 < 4 →
      (handleEvent c Event.majorMovement).1.state = .waitingMovement ∧
      (handleEvent c Event.majorMovement).1.level2Cycles = c.level2Cycles + 1 ∧
      (handleEvent c Event.majorMovement).2 = []) := by
  constructor <;> intro hi <;>
    simp only [handleEvent, getTransition, transWaitingMovement, h,
      Event.isBmxInterrupt] <;>
    split_ifs <;>
    simp_all [enterState, exitState, stateToStatus] <;>
    omega

/-- Witness for C1: at `level2Cycles = 3` the machine moves to Disarmed
and the counter is reset by the Disarmed entry action. -/
theorem waitingMovement_majorMovement_witness :
    (handleEvent { initConfig 10 with state := .waitingMovement, level2Cycles := 3 }
        Event.majorMovement).1.state = .disarmed ∧
    (handleEvent { initConfig 10 with state := .waitingMovement, level2Cycles := 3 }
        Event.majorMovement).1.level2Cycles = 0 :=
  (waitingMovement_majorMovement
    { initConfig 10 with state := .waitingMovement, level2Cycles := 3 } rfl).1
    (by decide)

/-- C2 counterexample: (TriggerL1, SeatboxOpened) has no row in the
spec's transition table, yet the code does not leave the state unchanged:
it transitions to SeatboxAccess. -/
theorem default_stay_counterexample :
    specHasRow .triggerLevel1 .seatboxOpened = false ∧
    (handleEvent { initConfig 10 with state := .triggerLevel1 }
        Event.seatboxOpened).1.state ≠ .triggerLevel1 := by
  decide

set_option maxHeartbeats 4000000 in
/-- C2 (amended): for every state S and event E such that the spec's
transition table has no row for (S, E), delivering E while in S leaves the
current state unchanged — except for the single pair
(TriggerL1, SeatboxOpened), where the code transitions to SeatboxAccess
(recording `preSeatboxState = TriggerL1`). -/
theorem default_stay (c : Config) (e : Event)
    (h : specHasRow c.state e = false) :
    (c.state = .triggerLevel1 ∧ e = .seatboxOpened →
      (handleEvent c e).1.state = .seatboxAccess) ∧
    (¬(c.state = .triggerLevel1 ∧ e = .seatboxOpened) →
      (handleEvent c e).1.state = c.state) := by
  cases hs : c.state <;> cases e <;>
    simp_all [handleEvent, getTransition, specHasRow, armedClass,
      transInit, transWaitingEnabled, transDisarmed, transDelayArmed,
      transArmed, transTriggerLevel1Wait, transTriggerLevel1,
      transTriggerLevel2, transWaitingMovement, transSeatboxAccess,
      enterState, exitState, stateToStatus, Event.isBmxInterrupt]

/-- Witness for C2: the exceptional pair at a concrete configuration. -/
theorem default_stay_witness :
    (handleEvent { initConfig 10 with state := .triggerLevel1 }
        Event.seatboxOpened).1.state = .seatboxAccess :=
  (default_stay { initConfig 10 with state := .triggerLevel1 }
      Event.seatboxOpened (by decide)).1 ⟨rfl, rfl⟩

/-- C3 counterexample: in TriggerL1 a MajorMovement transitions to
TriggerL2, but `handleEvent` blinks the hazards on that edge only for a
`BMXInterruptEvent`, so no `BlinkHazards` call is made for MajorMovement
(and the TriggerL2 entry actions do not blink either). -/
theorem triggerL1_blink_counterexample :
    (handleEvent { initConfig 10 with state := .triggerLevel1 }
        Event.majorMovement).1.state = .triggerLevel2 ∧
    Action.blinkHazards ∉
      (handleEvent { initConfig 10 with state := .triggerLevel1 }
        Event.majorMovement).2 := by
  decide

/-- C3 (amended): in TriggerL1 both a BMXInterrupt and a MajorMovement
transition the machine to TriggerL2, but the hazards are blinked on that
edge only for BMXInterrupt; for MajorMovement no `BlinkHazards` call
occurs. -/
theorem triggerL1_escalation (c : Config) (ts : Int)
    (h : c.state = .triggerLevel1) :
    ((handleEvent c (Event.bmxInterrupt ts)).1.state = .triggerLevel2 ∧
      Action.blinkHazards ∈ (handleEvent c (Event.bmxInterrupt ts)).2) ∧
    ((handleEvent c Event.majorMovement).1.state = .triggerLevel2 ∧
      Action.blinkHazards ∉ (handleEvent c Event.majorMovement).2) := by
  simp [handleEvent, getTransition, transTriggerLevel1, h, enterState,
    exitState, stateToStatus, Event.isBmxInterrupt]

/-- Witness for C3: the blink happens on a concrete BMXInterrupt edge. -/
theorem triggerL1_escalation_witness :
    Action.blinkHazards ∈
      (handleEvent { initConfig 10 with state := .triggerLevel1 }
        (Event.bmxInterrupt 42)).2 :=
  ((triggerL1_escalation { initConfig 10 with state := .triggerLevel1 }
      42 rfl).1).2

/-- C4 counterexample: on the entry to TriggerL1Wait taken from a freshly
constructed machine (minor movement while Armed), the `level1_cooldown`
timer is started with `l1CooldownDuration = 5` seconds — not the claimed
15 seconds. -/
theorem triggerL1Wait_cooldown_counterexample :
    Action.startTimer "level1_cooldown" 15 (some Event.level1CooldownTimer) ∉
      (handleEvent { initConfig 10 with state := .armed }
        Event.minorMovement).2 ∧
    Action.startTimer "level1_cooldown" 5 (some Event.level1CooldownTimer) ∈
      (handleEvent { initConfig 10 with state := .armed }
        Event.minorMovement).2 := by
  decide

set_option maxHeartbeats 4000000 in
/-- C4 (amended): every transition into TriggerL1Wait acquires the
suspend inhibitor with reason "Level 1 cooldown", soft-resets the BMX,
blinks the hazards once, and starts a one-shot `level1_cooldown` timer
whose expiry emits Level1CooldownTimer; the timer's duration is the
configurable `l1CooldownDuration` (in seconds), which `New` defaults to 5
— not a fixed 15 seconds. -/
theorem enter_triggerL1Wait_actions (c : Config) (e : Event)
    (hnew : (handleEvent c e).1.state = .triggerLevel1Wait)
    (hch : c.state ≠ .triggerLevel1Wait) :
    (Action.acquireInhibitor "Level 1 cooldown" ∈ (handleEvent c e).2 ∧
      Action.softReset ∈ (handleEvent c e).2 ∧
      Action.blinkHazards ∈ (handleEvent c e).2 ∧
      Action.startTimer "level1_cooldown" c.l1CooldownDuration
        (some Event.level1CooldownTimer) ∈ (handleEvent c e).2) ∧
    (∀ d : Int, (initConfig d).l1CooldownDuration = 5) := by
  refine ⟨?_, fun d => rfl⟩
  cases hs : c.state <;> cases e <;>
    simp_all [handleEvent, getTransition,
      transInit, transWaitingEnabled, transDisarmed, transDelayArmed,
      transArmed, transTriggerLevel1Wait, transTriggerLevel1,
      transTriggerLevel2, transWaitingMovement, transSeatboxAccess,
      enterState, exitState, stateToStatus, Event.isBmxInterrupt] <;>
    split_ifs <;> simp_all

/-- Witness for C4: the entry actions on a concrete Armed → TriggerL1Wait
edge, including the 5 s cooldown timer. -/
theorem enter_triggerL1Wait_actions_witness :
    Action.startTimer "level1_cooldown" 5 (some Event.level1CooldownTimer) ∈
      (handleEvent { initConfig 10 with state := .armed }
        Event.minorMovement).2 :=
  ((enter_triggerL1Wait_actions { initConfig 10 with state := .armed }
      Event.minorMovement (by decide) (by decide)).1).2.2.2

/-- Witness for C10: concrete evaluations — `Stop` on an inactive
controller returns it unchanged with no emissions, and on an active
horn-enabled controller the horn is pushed `"off"`. -/
theorem stop_noop_idempotent_witness :
    stop ⟨false, true⟩ = (⟨false, true⟩, []) ∧
    (Emission.hornPush "off" ∈ (stop ⟨true, true⟩).2) := by
  constructor
  · exact (stop_noop_idempotent ⟨false, true⟩).1 rfl
  · exact ((stop_noop_idempotent ⟨true, true⟩).2.2 rfl).mpr rfl

end AlarmService
